import Mathlib

/-!
Verification development for the cancellations-SOP report processor.

The repository classifies uploaded tabular reports as RPT600 ("payee
statement") or RPT908 ("cancellation") by keyword scoring over column
names, then computes per-type aggregate summaries and appends to a
processing log.  The definitions below are a shallow embedding of the
decision logic of `ReportProcessor` in `streamlit_app.py` (the primary
implementation) and of the simpler classifier in `src/app/main.py`.

External collaborators (pandas parsing, date parsing, series summation)
are modelled at the level of fidelity the verified properties need; each
such model carries a comment saying exactly what it stands for.
-/

/-- Character-list version of "starts with". -/
def leadsWith : List Char → List Char → Bool
  | [], _ => true
  | _ :: _, [] => false
  | a :: as, b :: bs => a == b && leadsWith as bs

/-- Character-list version of "occurs contiguously inside". -/
def hasInfix (n : List Char) : List Char → Bool
  | [] => n.isEmpty
  | b :: t => leadsWith n (b :: t) || hasInfix n t

/-- Python's substring test `needle in hay` on strings. -/
def substr (needle hay : String) : Bool :=
  hasInfix needle.toList hay.toList

/-- Python's `str.lower()` (ASCII case folding, exactly what
`Char.toLower` performs), written over the character list so that it
reduces inside the kernel. -/
def lowerStr (s : String) : String :=
  ⟨s.data.map Char.toLower⟩

/-- One pair test from `detect_report_type` in `streamlit_app.py`:
`indicator in col or col in indicator` (bidirectional containment). -/
def matchB (ind col : String) : Bool :=
  substr ind col || substr col ind

/-- `rpt600_indicators` of `streamlit_app.py` (lines 80-84). -/
def rpt600_indicators : List String :=
  ["payee", "commission", "dealer", "fee", "amount", "payment",
   "earnings", "compensation", "bonus", "incentive", "revenue",
   "payee number", "dealer number", "agent", "representative"]

/-- `rpt908_indicators` of `streamlit_app.py` (lines 87-92). -/
def rpt908_indicators : List String :=
  ["cancellation", "cancel", "termination", "refund", "contract",
   "policy", "agreement", "discontinuation", "cessation", "end date",
   "cancellation reason", "termination reason", "refund amount",
   "cancellation date", "termination date"]

/-- Inner loop of the score computation: the number of RPT600 indicators
that match a single (already lower-cased) column bidirectionally. -/
def w600 (col : String) : Nat :=
  rpt600_indicators.countP (fun ind => matchB ind col)

/-- Inner loop of the score computation: the number of RPT908 indicators
that match a single (already lower-cased) column bidirectionally. -/
def w908 (col : String) : Nat :=
  rpt908_indicators.countP (fun ind => matchB ind col)

/-- The pair (rpt600_score, rpt908_score) computed by
`ReportProcessor.detect_report_type` in `streamlit_app.py` (lines 77-116):
lower-case the column names, accumulate one point per matching
(column, indicator) pair, then add +2 bonuses for columns containing
"payee", "commission", "cancellation" and "refund". -/
def detectScores (columns : List String) : Nat × Nat :=
  let cols := columns.map lowerStr
  let base := cols.foldl (fun s col => (s.1 + w600 col, s.2 + w908 col)) (0, 0)
  let s600 := base.1
    + (if cols.any (fun col => substr "payee" col) then 2 else 0)
    + (if cols.any (fun col => substr "commission" col) then 2 else 0)
  let s908 := base.2
    + (if cols.any (fun col => substr "cancellation" col) then 2 else 0)
    + (if cols.any (fun col => substr "refund" col) then 2 else 0)
  (s600, s908)

/-- `ReportProcessor.detect_report_type` of `streamlit_app.py`
(lines 75-127): the decision rule over the two scores. -/
def detect_report_type (columns : List String) : Option String :=
  if (detectScores columns).1 > (detectScores columns).2
      ∧ (detectScores columns).1 ≥ 1 then some "RPT600"
  else if (detectScores columns).2 > (detectScores columns).1
      ∧ (detectScores columns).2 ≥ 1 then some "RPT908"
  else none

/-- `rpt600_indicators` of `src/app/main.py` (line 74). -/
def rpt600_indicators_main : List String :=
  ["payee", "commission", "dealer", "fee"]

/-- `rpt908_indicators` of `src/app/main.py` (line 76). -/
def rpt908_indicators_main : List String :=
  ["cancellation", "cancel", "termination", "refund"]

/-- The pair (rpt600_score, rpt908_score) computed by
`ReportProcessor.detect_report_type` of `src/app/main.py` (lines 72-87):
one point per indicator that occurs (one-directionally) in some
lower-cased column, no bonuses. -/
def mainScores (columns : List String) : Nat × Nat :=
  let cols := columns.map lowerStr
  (rpt600_indicators_main.countP (fun ind => cols.any (fun col => substr ind col)),
   rpt908_indicators_main.countP (fun ind => cols.any (fun col => substr ind col)))

/-- `ReportProcessor.detect_report_type` of `src/app/main.py`
(lines 70-95): a plain greater-than decision with no explicit
threshold. -/
def detect_report_type_main (columns : List String) : Option String :=
  if (mainScores columns).1 > (mainScores columns).2 then some "RPT600"
  else if (mainScores columns).2 > (mainScores columns).1 then some "RPT908"
  else none

/-- A cell of a parsed tabular dataset: missing (NaN), numeric, or text.
Numbers are modelled as rationals. -/
inductive Cell where
  | null
  | num (q : Rat)
  | str (s : String)
deriving DecidableEq

/-- A named column of cells. -/
structure Column where
  name : String
  cells : List Cell
deriving DecidableEq

/-- A parsed tabular dataset: an ordered sequence of named columns. -/
structure Dataset where
  columns : List Column
deriving DecidableEq

/-- `list(df.columns)`. -/
def Dataset.columnNames (d : Dataset) : List String :=
  d.columns.map (fun c => c.name)

/-- `len(df)`: the row count (all columns of a parsed frame have equal
length; we take the maximum so the definition is total). -/
def Dataset.numRows (d : Dataset) : Nat :=
  (d.columns.map (fun c => c.cells.length)).foldr Nat.max 0

/-- `df.empty` in pandas: true when either axis has length zero. -/
def Dataset.isEmpty (d : Dataset) : Bool :=
  d.columns.isEmpty || d.numRows == 0

/-- Exact-name column lookup (`"name" in df.columns` / `df["name"]`). -/
def Dataset.findCol (d : Dataset) (n : String) : Option Column :=
  d.columns.find? (fun c => c.name == n)

/-- `n in df.columns`. -/
def Dataset.hasCol (d : Dataset) (n : String) : Bool :=
  (d.findCol n).isSome

/-- `df.get(n, default)`: the cells of column `n`, or the default series
when the column is absent. -/
def Dataset.dget (d : Dataset) (n : String) (dflt : List Cell) : List Cell :=
  match d.findCol n with
  | some c => c.cells
  | none => dflt

/-- `Series.nunique()`: the number of distinct non-null values. -/
def nunique (cells : List Cell) : Nat :=
  ((cells.filter (fun c => c != Cell.null)).dedup).length

/-- Numeric value of a digit character. -/
def digitVal (c : Char) : Nat := c.toNat - 48

/-- Modelled collaborator: `pandas.to_datetime(..., errors="coerce")` on a
single text cell.  The model accepts exactly ISO `YYYY-MM-DD` strings
(the format exercised by the repository's data and tests); a date is
encoded as the natural number `y*10000 + m*100 + d`, on which the usual
order of naturals agrees with calendar order.  Anything else coerces to
NaT, i.e. `none`. -/
def parseDate (s : String) : Option Nat :=
  match s.toList with
  | [y1, y2, y3, y4, '-', m1, m2, '-', d1, d2] =>
    if y1.isDigit && y2.isDigit && y3.isDigit && y4.isDigit
        && m1.isDigit && m2.isDigit && d1.isDigit && d2.isDigit then
      let y := ((digitVal y1 * 10 + digitVal y2) * 10 + digitVal y3) * 10 + digitVal y4
      let m := digitVal m1 * 10 + digitVal m2
      let d := digitVal d1 * 10 + digitVal d2
      if 1 ≤ m && m ≤ 12 && 1 ≤ d && d ≤ 31 then
        some (y * 10000 + m * 100 + d)
      else none
    else none
  | _ => none

/-- Date coercion of one cell: only text cells can parse as dates. -/
def parseDateCell : Cell → Option Nat
  | Cell.str s => parseDate s
  | _ => none

/-- Two-digit zero padding (for `%m` / `%d`). -/
def pad2 (n : Nat) : String :=
  if n < 10 then "0" ++ toString n else toString n

/-- Four-digit zero padding (for `%Y`). -/
def pad4 (n : Nat) : String :=
  if n < 10 then "000" ++ toString n
  else if n < 100 then "00" ++ toString n
  else if n < 1000 then "0" ++ toString n
  else toString n

/-- `strftime('%Y-%m-%d')` on an encoded date. -/
def fmtDate (k : Nat) : String :=
  pad4 (k / 10000) ++ "-" ++ pad2 (k / 100 % 100) ++ "-" ++ pad2 (k % 100)

/-- The `dates.min()/dates.max()` date-range extraction of
`process_rpt600` (lines 162-169 of `streamlit_app.py`): coerce every
cell, and when at least one cell parses format `"<min> to <max>"`.  When
nothing parses, `min()`/`max()` are NaT, `strftime` raises, the
surrounding `except` swallows the error and the range stays absent. -/
def dateRangeOf (cells : List Cell) : Option String :=
  let dates := cells.filterMap parseDateCell
  match dates.min?, dates.max? with
  | some lo, some hi => some (fmtDate lo ++ " to " ++ fmtDate hi)
  | _, _ => none

/-- Text-cell test. -/
def Cell.isText : Cell → Bool
  | Cell.str _ => true
  | _ => false

/-- Numeric-cell test. -/
def Cell.isNum : Cell → Bool
  | Cell.num _ => true
  | _ => false

/-- Numeric projection of a cell. -/
def Cell.numVal : Cell → Option Rat
  | Cell.num q => some q
  | _ => none

/-- Textual projection of a cell. -/
def Cell.strVal : Cell → Option String
  | Cell.str s => some s
  | _ => none

/-- Modelled collaborator: `Series.sum()` as used under the `try` blocks
of `process_rpt600` / `process_rpt908`.  `skipna` drops the nulls first;
an all-numeric remainder sums to a number (an empty remainder sums to
0); an all-textual remainder is reduced with `+`, which for Python
strings concatenates WITHOUT raising, so the sum is then a string; a
remainder mixing text with numbers raises `TypeError` (`none` here),
which the caller catches. -/
def seriesSum (cells : List Cell) : Option Cell :=
  let vals := cells.filter (fun c => c != Cell.null)
  if vals.all Cell.isNum then some (Cell.num ((vals.filterMap Cell.numVal).sum))
  else if vals.all Cell.isText then
    some (Cell.str ((vals.filterMap Cell.strVal).foldl (fun a s => a ++ s) ""))
  else none

/-- Summary record built by `process_rpt600`. -/
structure Rpt600Summary where
  total_records : Nat
  unique_payees : Nat
  unique_dealers : Nat
  date_range : Option String
  total_amount : Cell
deriving DecidableEq

/-- `date_cols` of `process_rpt600` (lines 149-153). -/
def date_cols (d : Dataset) : List Column :=
  d.columns.filter (fun c =>
    substr "date" (lowerStr c.name) || substr "time" (lowerStr c.name))

/-- `amount_cols` of `process_rpt600` (lines 154-160). -/
def amount_cols (d : Dataset) : List Column :=
  d.columns.filter (fun c =>
    substr "amount" (lowerStr c.name) || substr "commission" (lowerStr c.name)
      || substr "fee" (lowerStr c.name))

/-- `ReportProcessor.process_rpt600` of `streamlit_app.py`
(lines 129-185), restricted to the summary record (the preview rows and
the success wrapper carry no decision logic). -/
def process_rpt600 (d : Dataset) : Rpt600Summary :=
  { total_records := d.numRows
    unique_payees :=
      if d.hasCol "Payee" || d.hasCol "Payee Number" then
        nunique (d.dget "Payee" (d.dget "Payee Number" []))
      else 0
    unique_dealers :=
      if d.hasCol "Dealer" || d.hasCol "Dealer Number" then
        nunique (d.dget "Dealer" (d.dget "Dealer Number" []))
      else 0
    date_range :=
      match (date_cols d).head? with
      | some c => dateRangeOf c.cells
      | none => none
    total_amount :=
      match (amount_cols d).head? with
      | some c => (seriesSum c.cells).getD (Cell.num 0)
      | none => Cell.num 0 }

/-- Summary record built by `process_rpt908` (its `date_range` field is
initialized to `None` and never filled by the source). -/
structure Rpt908Summary where
  total_records : Nat
  cancellation_reasons : List (Cell × Nat)
  total_refund_amount : Cell
  date_range : Option String
deriving DecidableEq

/-- `reason_cols` of `process_rpt908` (lines 198-202). -/
def reason_cols (d : Dataset) : List Column :=
  d.columns.filter (fun c =>
    substr "reason" (lowerStr c.name) || substr "cause" (lowerStr c.name))

/-- `refund_cols` of `process_rpt908` (lines 209-213). -/
def refund_cols (d : Dataset) : List Column :=
  d.columns.filter (fun c =>
    substr "refund" (lowerStr c.name) || substr "amount" (lowerStr c.name))

/-- `Series.value_counts().to_dict()`: occurrence counts of the distinct
non-null values (pandas drops NaN). -/
def value_counts (cells : List Cell) : List (Cell × Nat) :=
  let vals := cells.filter (fun c => c != Cell.null)
  vals.dedup.map (fun v => (v, vals.count v))

/-- `ReportProcessor.process_rpt908` of `streamlit_app.py`
(lines 187-228), restricted to the summary record. -/
def process_rpt908 (d : Dataset) : Rpt908Summary :=
  { total_records := d.numRows
    cancellation_reasons :=
      match (reason_cols d).head? with
      | some c => value_counts c.cells
      | none => []
    total_refund_amount :=
      match (refund_cols d).head? with
      | some c => (seriesSum c.cells).getD (Cell.num 0)
      | none => Cell.num 0
    date_range := none }

/-- One entry of `self.processed_reports`. -/
structure LogEntry where
  timestamp : String
  report_type : String
  records_processed : Nat
  status : String
deriving DecidableEq

/-- Outcome of `execute_sop_workflow`: a per-type summary on success, or
the error record `{"success": False, "error": ...}`. -/
inductive WorkflowResult where
  | success600 (summary : Rpt600Summary)
  | success908 (summary : Rpt908Summary)
  | failure (error : String)
deriving DecidableEq

/-- The `result["success"]` flag. -/
def WorkflowResult.isSuccess : WorkflowResult → Bool
  | .failure _ => false
  | _ => true

/-- `ReportProcessor.execute_sop_workflow` of `streamlit_app.py`
(lines 230-263).  State is passed explicitly: the function receives the
current processing log and the current timestamp, and returns the
result, the new log, and whether `save_processed_data` was triggered. -/
def execute_sop_workflow (report_type : String) (d : Dataset)
    (log : List LogEntry) (now : String) :
    WorkflowResult × List LogEntry × Bool :=
  if report_type = "RPT600" then
    let s := process_rpt600 d
    (WorkflowResult.success600 s,
     log ++ [⟨now, report_type, s.total_records, "completed"⟩], true)
  else if report_type = "RPT908" then
    let s := process_rpt908 d
    (WorkflowResult.success908 s,
     log ++ [⟨now, report_type, s.total_records, "completed"⟩], true)
  else
    (WorkflowResult.failure ("Unsupported report type: " ++ report_type),
     log, false)

/-- Outcome of `validate_report`. -/
inductive ValidationResult where
  | valid (report_type : String) (row_count : Nat) (columns : List String)
  | invalid (error : String)
deriving DecidableEq

/-- `ReportProcessor.validate_report` of `streamlit_app.py`
(lines 41-73), starting from the parsed dataset (file reading is the
external parser collaborator).  The second component instruments the
control flow with the number of times `detect_report_type` was invoked,
so that "classification never runs" is a provable statement. -/
def validate_report (d : Dataset) : ValidationResult × Nat :=
  if d.isEmpty then
    (ValidationResult.invalid "File appears to be empty", 0)
  else
    match detect_report_type d.columnNames with
    | none => (ValidationResult.invalid "Could not determine report type", 1)
    | some rt => (ValidationResult.valid rt d.numRows d.columnNames, 1)

/-- The claim-side score of C2, phrased exactly as the spec describes it:
the number of (lower-cased column, indicator) pairs with bidirectional
containment, plus 2 for each bonus term contained in some column. -/
def specScore (indicators bonusTerms : List String)
    (columns : List String) : Nat :=
  let cols := columns.map lowerStr
  (cols ×ˢ indicators).countP (fun p => matchB p.2 p.1)
    + 2 * bonusTerms.countP (fun t => cols.any (fun col => substr t col))

/-- Sample RPT600 rows from the spec and tests:
`[{Payee: A, Dealer: D1, Commission: 100}, {Payee: B, Dealer: D2, Commission: 150}]`. -/
def exPayee : Dataset :=
  ⟨[⟨"Payee", [Cell.str "A", Cell.str "B"]⟩,
    ⟨"Dealer", [Cell.str "D1", Cell.str "D2"]⟩,
    ⟨"Commission", [Cell.num 100, Cell.num 150]⟩]⟩

/-- Sample dataset with a parseable date column. -/
def exDates : Dataset :=
  ⟨[⟨"Date", [Cell.str "2024-10-01", Cell.str "2024-10-02",
              Cell.str "2024-10-03"]⟩]⟩

/-- Sample dataset whose date column has only unparseable values. -/
def exBadDates : Dataset :=
  ⟨[⟨"Date", [Cell.str "soon", Cell.str "unknown"]⟩]⟩

/-- Sample dataset whose first amount column mixes a textual cell with a
numeric one. -/
def exBadAmount : Dataset :=
  ⟨[⟨"Amount", [Cell.str "n/a", Cell.num 5]⟩]⟩

/-- Sample dataset whose first amount column is entirely textual. -/
def exTextAmount : Dataset :=
  ⟨[⟨"Amount", [Cell.str "TBD", Cell.str "pending"]⟩]⟩

/-- The score-accumulating fold of `detect_report_type` is the pair of
per-column match-count sums. -/
lemma foldl_scores (cols : List String) (a b : Nat) :
    cols.foldl (fun s col => (s.1 + w600 col, s.2 + w908 col)) (a, b)
      = (a + (cols.map w600).sum, b + (cols.map w908).sum) := by
  induction cols generalizing a b with
  | nil => simp
  | cons c t ih =>
    simp only [List.foldl_cons, List.map_cons, List.sum_cons, ih]
    refine Prod.ext ?_ ?_ <;> simp <;> omega

/-- Closed form of `detectScores`: per-column sums plus the four bonus
conditionals. -/
lemma detectScores_eq (columns : List String) :
    detectScores columns =
      (((columns.map lowerStr).map w600).sum
        + (if (columns.map lowerStr).any (fun col => substr "payee" col)
            then 2 else 0)
        + (if (columns.map lowerStr).any (fun col => substr "commission" col)
            then 2 else 0),
       ((columns.map lowerStr).map w908).sum
        + (if (columns.map lowerStr).any (fun col => substr "cancellation" col)
            then 2 else 0)
        + (if (columns.map lowerStr).any (fun col => substr "refund" col)
            then 2 else 0)) := by
  simp only [detectScores, foldl_scores, Nat.zero_add]

/-- C1: for every list of column names, `detect_report_type` returns
`"RPT600"` (`PayeeStatement`) exactly when the RPT600 score beats the
RPT908 score and is at least 1, returns `"RPT908"` (`Cancellation`)
exactly when the RPT908 score beats the RPT600 score and is at least 1,
and in every other case (equal scores, both zero, or an empty column
list) returns `none` (`Undetermined`). -/
theorem detect_report_type_decision_rule (columns : List String) :
    (detect_report_type columns = some "RPT600" ↔
      (detectScores columns).1 > (detectScores columns).2
        ∧ (detectScores columns).1 ≥ 1)
  ∧ (detect_report_type columns = some "RPT908" ↔
      (detectScores columns).2 > (detectScores columns).1
        ∧ (detectScores columns).2 ≥ 1)
  ∧ (detect_report_type columns = none ↔
      (detectScores columns).1 = (detectScores columns).2)
  ∧ detect_report_type [] = none := by
  refine ⟨?_, ?_, ?_, by decide⟩ <;>
    · simp only [detect_report_type]
      split_ifs with h1 h2 <;> simp_all <;> omega

/-- C4: `detect_report_type` is a total function (the shallow embedding
is a plain `def`, so it terminates and cannot raise); its outcome is
always one of `"RPT600"`, `"RPT908"` or `none`, and the empty column
list yields `none`, the only way a non-match is signalled. -/
theorem detect_report_type_total (columns : List String) :
    (detect_report_type columns = some "RPT600"
      ∨ detect_report_type columns = some "RPT908"
      ∨ detect_report_type columns = none)
  ∧ detect_report_type [] = none := by
  refine ⟨?_, by decide⟩
  simp only [detect_report_type]
  split_ifs <;> simp

/-- Counting matching pairs in the column-indicator product equals the
sum of per-column match counts. -/
lemma countP_product (cols inds : List String) :
    (cols ×ˢ inds).countP (fun p => matchB p.2 p.1)
      = (cols.map (fun col => inds.countP (fun ind => matchB ind col))).sum := by
  induction cols with
  | nil => simp
  | cons c t ih =>
    rw [List.product_cons, List.countP_append, ih, List.map_cons, List.sum_cons]
    have h : (List.map (fun b => (c, b)) inds).countP (fun p => matchB p.2 p.1)
        = inds.countP (fun ind => matchB ind c) := by
      rw [List.countP_map]; rfl
    rw [h]

/-- Two independent +2 bonuses equal twice the count of firing bonus
terms. -/
lemma bonus_eq (t1 t2 : String) (cols : List String) :
    (if cols.any (fun col => substr t1 col) then 2 else 0)
      + (if cols.any (fun col => substr t2 col) then 2 else 0)
      = 2 * ([t1, t2].countP (fun t => cols.any (fun col => substr t col))) := by
  by_cases h1 : cols.any (fun col => substr t1 col) <;>
    by_cases h2 : cols.any (fun col => substr t2 col) <;>
      simp [h1, h2, List.countP_cons]

/-- C2: each classification score equals the number of (lower-cased
column, indicator) pairs with bidirectional substring containment, plus
a +2 bonus for each of the strong terms ("payee"/"commission" for the
RPT600 score, "cancellation"/"refund" for the RPT908 score) contained in
some column, independently of how many base matches those columns
already contributed. -/
theorem detect_report_type_scores_spec (columns : List String) :
    detectScores columns
      = (specScore rpt600_indicators ["payee", "commission"] columns,
         specScore rpt908_indicators ["cancellation", "refund"] columns) := by
  have h6 : ((columns.map lowerStr) ×ˢ rpt600_indicators).countP
        (fun p => matchB p.2 p.1)
      = ((columns.map lowerStr).map w600).sum :=
    countP_product (columns.map lowerStr) rpt600_indicators
  have h9 : ((columns.map lowerStr) ×ˢ rpt908_indicators).countP
        (fun p => matchB p.2 p.1)
      = ((columns.map lowerStr).map w908).sum :=
    countP_product (columns.map lowerStr) rpt908_indicators
  rw [detectScores_eq]
  simp only [specScore]
  rw [h6, h9, ← bonus_eq, ← bonus_eq]
  simp [Prod.ext_iff, Nat.add_assoc]

/-- C5: validating a zero-row dataset fails with the empty-dataset
reason, and the classifier-invocation counter stays at 0: keyword
scoring never runs on such a dataset. -/
theorem validate_report_empty_dataset (d : Dataset) (h : d.numRows = 0) :
    validate_report d
      = (ValidationResult.invalid "File appears to be empty", 0) := by
  have he : d.isEmpty = true := by
    rw [Dataset.isEmpty, h]
    simp
  rw [validate_report, if_pos he]

/-- Witness for C5 at a concrete zero-row dataset. -/
theorem validate_report_empty_dataset_witness :
    validate_report ⟨[⟨"Payee", []⟩]⟩
      = (ValidationResult.invalid "File appears to be empty", 0) :=
  validate_report_empty_dataset ⟨[⟨"Payee", []⟩]⟩ (by decide)

/-- C7: invoking the workflow with a report type other than RPT600 or
RPT908 fails with the unsupported-type error, leaves the processing log
unchanged, and does not trigger persistence; and in general any
non-success outcome leaves the log unchanged and persistence
untriggered. -/
theorem workflow_unsupported_type (rt : String) (d : Dataset)
    (log : List LogEntry) (now : String)
    (h1 : rt ≠ "RPT600") (h2 : rt ≠ "RPT908") :
    (execute_sop_workflow rt d log now
      = (WorkflowResult.failure ("Unsupported report type: " ++ rt), log, false))
  ∧ ∀ rt2 : String,
      (execute_sop_workflow rt2 d log now).1.isSuccess = false →
        (execute_sop_workflow rt2 d log now).2.1 = log
          ∧ (execute_sop_workflow rt2 d log now).2.2 = false := by
  constructor
  · rw [execute_sop_workflow, if_neg h1, if_neg h2]
  · intro rt2 hf
    by_cases e1 : rt2 = "RPT600"
    · simp [execute_sop_workflow, e1, WorkflowResult.isSuccess] at hf
    · by_cases e2 : rt2 = "RPT908"
      · simp [execute_sop_workflow, e1, e2, WorkflowResult.isSuccess] at hf
      · constructor <;> simp [execute_sop_workflow, e1, e2]

/-- Witness for C7 at a concrete unsupported report type. -/
theorem workflow_unsupported_type_witness :
    execute_sop_workflow "RPT999" exPayee [] "2024-10-07T12:00:00"
      = (WorkflowResult.failure ("Unsupported report type: " ++ "RPT999"),
         [], false) :=
  (workflow_unsupported_type "RPT999" exPayee [] "2024-10-07T12:00:00"
    (by decide) (by decide)).1

/-- C3 fails as stated: pandas sums an entirely textual object column by
string concatenation without raising, so on a dataset whose first
amount-keyword column holds only text the program stores a string - not
a number - in `total_amount` (and no silent default to 0 happens).  At
the concrete input below the total is the string "TBDpending". -/
theorem amount_sum_text_counterexample :
    (process_rpt600 exTextAmount).total_amount = Cell.str "TBDpending"
    ∧ (process_rpt600 exTextAmount).total_amount.isNum = false := by
  constructor <;> decide

/-- C3 (amended): in both summarizer branches the first amount-keyword
(resp. refund-keyword) column is summed with null cells skipped; the
total is a number whenever the non-null cells are all numeric (the sum),
or when a mixed text/numeric column makes the pandas sum raise and the
caught failure silently defaults the total to 0, or when no matching
column exists (0); but an entirely textual column yields the
concatenation of its values, a string.  No exception escapes
`process_rpt600` / `process_rpt908` (the embedding is total). -/
theorem summarize_amount_sum_best_effort (d : Dataset) :
    ((amount_cols d = [] → (process_rpt600 d).total_amount = Cell.num 0)
      ∧ ∀ c : Column, (amount_cols d).head? = some c →
          ((c.cells.filter (fun x => x != Cell.null)).all Cell.isNum = true →
            (process_rpt600 d).total_amount
              = Cell.num (((c.cells.filter (fun x => x != Cell.null)).filterMap
                  Cell.numVal).sum))
          ∧ ((c.cells.filter (fun x => x != Cell.null)).all Cell.isNum = false →
              (c.cells.filter (fun x => x != Cell.null)).all Cell.isText = true →
            (process_rpt600 d).total_amount
              = Cell.str (((c.cells.filter (fun x => x != Cell.null)).filterMap
                  Cell.strVal).foldl (fun a s => a ++ s) ""))
          ∧ ((c.cells.filter (fun x => x != Cell.null)).all Cell.isNum = false →
              (c.cells.filter (fun x => x != Cell.null)).all Cell.isText = false →
            (process_rpt600 d).total_amount = Cell.num 0))
  ∧ ((refund_cols d = [] → (process_rpt908 d).total_refund_amount = Cell.num 0)
      ∧ ∀ c : Column, (refund_cols d).head? = some c →
          ((c.cells.filter (fun x => x != Cell.null)).all Cell.isNum = true →
            (process_rpt908 d).total_refund_amount
              = Cell.num (((c.cells.filter (fun x => x != Cell.null)).filterMap
                  Cell.numVal).sum))
          ∧ ((c.cells.filter (fun x => x != Cell.null)).all Cell.isNum = false →
              (c.cells.filter (fun x => x != Cell.null)).all Cell.isText = true →
            (process_rpt908 d).total_refund_amount
              = Cell.str (((c.cells.filter (fun x => x != Cell.null)).filterMap
                  Cell.strVal).foldl (fun a s => a ++ s) ""))
          ∧ ((c.cells.filter (fun x => x != Cell.null)).all Cell.isNum = false →
              (c.cells.filter (fun x => x != Cell.null)).all Cell.isText = false →
            (process_rpt908 d).total_refund_amount = Cell.num 0)) := by
  refine ⟨⟨?_, ?_⟩, ?_, ?_⟩
  · intro h
    simp [process_rpt600, h]
  · intro c hc
    refine ⟨fun h1 => ?_, fun h1 h2 => ?_, fun h1 h2 => ?_⟩
    · simp [process_rpt600, hc, seriesSum, h1]
    · simp [process_rpt600, hc, seriesSum, h1, h2]
    · simp [process_rpt600, hc, seriesSum, h1, h2]
  · intro h
    simp [process_rpt908, h]
  · intro c hc
    refine ⟨fun h1 => ?_, fun h1 h2 => ?_, fun h1 h2 => ?_⟩
    · simp [process_rpt908, hc, seriesSum, h1]
    · simp [process_rpt908, hc, seriesSum, h1, h2]
    · simp [process_rpt908, hc, seriesSum, h1, h2]

/-- Witness for the amended C3: a concrete dataset whose first amount
column mixes text with a number sums to the silent default 0. -/
theorem summarize_amount_sum_best_effort_witness :
    (process_rpt600 exBadAmount).total_amount = Cell.num 0 :=
  ((summarize_amount_sum_best_effort exBadAmount).1.2
      ⟨"Amount", [Cell.str "n/a", Cell.num 5]⟩ (by decide)).2.2
    (by decide) (by decide)

/-- Column presence turns `df.get` with a fallback into plain access. -/
lemma dget_of_hasCol (d : Dataset) (n : String) (x : List Cell)
    (h : d.hasCol n = true) : d.dget n x = d.dget n [] := by
  unfold Dataset.dget
  cases hf : d.findCol n with
  | none =>
    rw [Dataset.hasCol, hf] at h
    simp at h
  | some c => rfl

/-- Column absence makes `df.get` return its fallback. -/
lemma dget_of_not_hasCol (d : Dataset) (n : String) (x : List Cell)
    (h : d.hasCol n = false) : d.dget n x = x := by
  unfold Dataset.dget
  cases hf : d.findCol n with
  | none => rfl
  | some c =>
    rw [Dataset.hasCol, hf] at h
    simp at h

/-- C8: the distinct-payee count uses column "Payee" when present,
falls back to "Payee Number" otherwise, and is 0 (not an error) when
neither exists; likewise for "Dealer"/"Dealer Number"; and on the
sample rows {Payee: A/B, Dealer: D1/D2, Commission: 100/150} the summary
is unique_payees = 2, unique_dealers = 2, total_amount = 250 (the
number 250, i.e. `Cell.num 250`). -/
theorem unique_counts_preferred_fallback :
    (∀ d : Dataset,
      (d.hasCol "Payee" = true →
        (process_rpt600 d).unique_payees = nunique (d.dget "Payee" []))
      ∧ (d.hasCol "Payee" = false → d.hasCol "Payee Number" = true →
        (process_rpt600 d).unique_payees = nunique (d.dget "Payee Number" []))
      ∧ (d.hasCol "Payee" = false → d.hasCol "Payee Number" = false →
        (process_rpt600 d).unique_payees = 0)
      ∧ (d.hasCol "Dealer" = true →
        (process_rpt600 d).unique_dealers = nunique (d.dget "Dealer" []))
      ∧ (d.hasCol "Dealer" = false → d.hasCol "Dealer Number" = true →
        (process_rpt600 d).unique_dealers = nunique (d.dget "Dealer Number" []))
      ∧ (d.hasCol "Dealer" = false → d.hasCol "Dealer Number" = false →
        (process_rpt600 d).unique_dealers = 0))
  ∧ (process_rpt600 exPayee).unique_payees = 2
  ∧ (process_rpt600 exPayee).unique_dealers = 2
  ∧ (process_rpt600 exPayee).total_amount = Cell.num 250 := by
  have hca : (amount_cols exPayee).head?
      = some ⟨"Commission", [Cell.num 100, Cell.num 150]⟩ := by decide
  refine ⟨fun d => ⟨?_, ?_, ?_, ?_, ?_, ?_⟩, by decide, by decide,
    by simp [process_rpt600, hca, seriesSum, Cell.isNum, Cell.numVal]; norm_num⟩
  · intro h
    simp [process_rpt600, h, dget_of_hasCol d _ _ h]
  · intro h h2
    simp [process_rpt600, h, h2, dget_of_not_hasCol d _ _ h]
  · intro h h2
    simp [process_rpt600, h, h2]
  · intro h
    simp [process_rpt600, h, dget_of_hasCol d _ _ h]
  · intro h h2
    simp [process_rpt600, h, h2, dget_of_not_hasCol d _ _ h]
  · intro h h2
    simp [process_rpt600, h, h2]

/-- Witness for C8: the preferred-column case at the sample dataset. -/
theorem unique_counts_preferred_fallback_witness :
    (process_rpt600 exPayee).unique_payees = nunique (exPayee.dget "Payee" []) :=
  (unique_counts_preferred_fallback.1 exPayee).1 (by decide)

/-- C6: date-range extraction takes the first column whose name contains
"date" or "time" (case-insensitively); when no cell of it parses (or no
such column exists) the range is absent, and when some cells parse the
range is "<min> to <max>" over the parsed dates; on the sample dates
2024-10-01/02/03 it yields "2024-10-01 to 2024-10-03" and on an
all-unparseable column it yields `none`.  The embedding is a total
function, so the extraction never raises out of the summarizer. -/
theorem date_range_extraction_spec :
    (∀ d : Dataset,
      (date_cols d = [] → (process_rpt600 d).date_range = none)
      ∧ ∀ c : Column, (date_cols d).head? = some c →
          (c.cells.filterMap parseDateCell = [] →
            (process_rpt600 d).date_range = none)
          ∧ (c.cells.filterMap parseDateCell ≠ [] →
            (process_rpt600 d).date_range
              = some (fmtDate (((c.cells.filterMap parseDateCell).min?).getD 0)
                  ++ " to "
                  ++ fmtDate (((c.cells.filterMap parseDateCell).max?).getD 0))))
  ∧ (process_rpt600 exDates).date_range = some "2024-10-01 to 2024-10-03"
  ∧ (process_rpt600 exBadDates).date_range = none := by
  refine ⟨fun d => ⟨?_, ?_⟩, by decide, by decide⟩
  · intro h
    simp [process_rpt600, h]
  · intro c hc
    constructor
    · intro hp
      simp [process_rpt600, hc, dateRangeOf, hp, List.min?, List.max?]
    · intro hp
      rcases hne : c.cells.filterMap parseDateCell with _ | ⟨a, t⟩
      · exact absurd hne hp
      · simp [process_rpt600, hc, dateRangeOf, hne, List.min?, List.max?]

/-- Witness for C6: the general characterization applied at the sample
dataset with three parseable dates. -/
theorem date_range_extraction_spec_witness :
    (process_rpt600 exDates).date_range
      = some (fmtDate ((([Cell.str "2024-10-01", Cell.str "2024-10-02",
              Cell.str "2024-10-03"].filterMap parseDateCell).min?).getD 0)
          ++ " to "
          ++ fmtDate ((([Cell.str "2024-10-01", Cell.str "2024-10-02",
              Cell.str "2024-10-03"].filterMap parseDateCell).max?).getD 0)) :=
  ((date_range_extraction_spec.1 exDates).2
      ⟨"Date", [Cell.str "2024-10-01", Cell.str "2024-10-02",
                Cell.str "2024-10-03"]⟩
      (by decide)).2 (by decide)

/-- C9 fails as stated: the column set ["Payee", "Commission", "c", "ca"]
contains "Payee" and "Commission" and no column contains any cancellation
keyword (second conjunct), yet the classifier returns "RPT908", because
the short names "c" and "ca" are substrings of many cancellation
indicators and the bidirectional match counts them for the RPT908
score. -/
theorem classify_keyword_claim_counterexample :
    detect_report_type ["Payee", "Commission", "c", "ca"] = some "RPT908"
    ∧ (["Payee", "Commission", "c", "ca"].all
        (fun col => rpt908_indicators.all
          (fun ind => !(substr ind (lowerStr col))))) = true := by
  constructor <;> decide

/-- C9 (amended): a column set containing "Payee" and "Commission" whose
remaining columns match no cancellation (RPT908) indicator in either
containment direction classifies as "RPT600" - extra payee-family
columns such as "Dealer" or "Fee" are allowed - and a column set
containing "Cancellation_Reason" and "Refund_Amount" whose remaining
columns match no payee-family (RPT600) indicator in either direction
classifies as "RPT908". -/
theorem classify_keyword_soundness_amended :
    (∀ columns : List String, "Payee" ∈ columns → "Commission" ∈ columns →
      (∀ c ∈ columns, c ≠ "Payee" → c ≠ "Commission" →
        ∀ ind ∈ rpt908_indicators, matchB ind (lowerStr c) = false) →
      detect_report_type columns = some "RPT600")
  ∧ (∀ columns : List String,
      "Cancellation_Reason" ∈ columns → "Refund_Amount" ∈ columns →
      (∀ c ∈ columns, c ≠ "Cancellation_Reason" → c ≠ "Refund_Amount" →
        ∀ ind ∈ rpt600_indicators, matchB ind (lowerStr c) = false) →
      detect_report_type columns = some "RPT908") := by
  constructor
  · intro columns hP hC hN
    have h908 : ∀ x ∈ columns.map lowerStr, w908 x = 0 := by
      intro x hx
      rcases List.mem_map.1 hx with ⟨c, hc, rfl⟩
      by_cases e1 : c = "Payee"
      · subst e1; decide
      · by_cases e2 : c = "Commission"
        · subst e2; decide
        · refine List.countP_eq_zero.2 (fun ind hi => ?_)
          simp [hN c hc e1 e2 ind hi]
    have hsum908 : ((columns.map lowerStr).map w908).sum = 0 := by
      refine List.sum_eq_zero ?_
      intro x hx
      rcases List.mem_map.1 hx with ⟨y, hy, rfl⟩
      exact h908 y hy
    have hnosub : ∀ t ∈ rpt908_indicators,
        (columns.map lowerStr).any (fun col => substr t col) = false := by
      intro t ht
      refine List.any_eq_false.2 ?_
      intro x hx
      have h0 := List.countP_eq_zero.1 (h908 x hx) t ht
      simp [matchB] at h0
      simp [h0.1]
    have hbp : (columns.map lowerStr).any
        (fun col => substr "payee" col) = true := by
      refine List.any_eq_true.2 ⟨"payee", ?_, by decide⟩
      have hm := List.mem_map_of_mem lowerStr hP
      have e : lowerStr "Payee" = "payee" := by decide
      rwa [e] at hm
    have key2 : (detectScores columns).2 = 0 := by
      rw [detectScores_eq]
      simp only [List.map_map] at hsum908
      simp [hsum908, hnosub "cancellation" (by decide),
        hnosub "refund" (by decide)]
    have key1 : 2 ≤ (detectScores columns).1 := by
      rw [detectScores_eq]
      cases hcany : (columns.map lowerStr).any
          (fun col => substr "commission" col) <;>
        simp [hbp, hcany]
    have hcond : (detectScores columns).1 > (detectScores columns).2
        ∧ (detectScores columns).1 ≥ 1 := by
      constructor <;> omega
    simp only [detect_report_type]
    rw [if_pos hcond]
  · intro columns hCR hRA hN
    have hle : ∀ x ∈ columns.map lowerStr, w600 x ≤ w908 x := by
      intro x hx
      rcases List.mem_map.1 hx with ⟨c, hc, rfl⟩
      by_cases e1 : c = "Cancellation_Reason"
      · subst e1; decide
      · by_cases e2 : c = "Refund_Amount"
        · subst e2; decide
        · have h6 : w600 (lowerStr c) = 0 :=
            List.countP_eq_zero.2 (fun ind hi => by
              simp [hN c hc e1 e2 ind hi])
          omega
    have hsumle : ((columns.map lowerStr).map w600).sum
        ≤ ((columns.map lowerStr).map w908).sum :=
      List.sum_le_sum hle
    have hno6 : ∀ t ∈ (["payee", "commission"] : List String),
        (columns.map lowerStr).any (fun col => substr t col) = false := by
      intro t ht
      refine List.any_eq_false.2 ?_
      intro x hx
      rcases List.mem_map.1 hx with ⟨c, hc, rfl⟩
      by_cases e1 : c = "Cancellation_Reason"
      · subst e1
        simp only [List.mem_cons, List.mem_singleton] at ht
        rcases ht with rfl | rfl | h
        · decide
        · decide
        · simp at h
      · by_cases e2 : c = "Refund_Amount"
        · subst e2
          simp only [List.mem_cons, List.mem_singleton] at ht
          rcases ht with rfl | rfl | h
          · decide
          · decide
          · simp at h
        · have hmem : t ∈ rpt600_indicators := by
            simp only [List.mem_cons, List.mem_singleton] at ht
            rcases ht with rfl | rfl | h
            · decide
            · decide
            · simp at h
          have h0 := hN c hc e1 e2 t hmem
          simp [matchB] at h0
          simp [h0.1]
    have hb1 : (columns.map lowerStr).any
        (fun col => substr "cancellation" col) = true := by
      refine List.any_eq_true.2 ⟨"cancellation_reason", ?_, by decide⟩
      have hm := List.mem_map_of_mem lowerStr hCR
      have e : lowerStr "Cancellation_Reason" = "cancellation_reason" := by decide
      rwa [e] at hm
    have hb2 : (columns.map lowerStr).any
        (fun col => substr "refund" col) = true := by
      refine List.any_eq_true.2 ⟨"refund_amount", ?_, by decide⟩
      have hm := List.mem_map_of_mem lowerStr hRA
      have e : lowerStr "Refund_Amount" = "refund_amount" := by decide
      rwa [e] at hm
    have e1 : (detectScores columns).1
        = ((columns.map lowerStr).map w600).sum := by
      rw [detectScores_eq]
      simp [hno6 "payee" (by simp), hno6 "commission" (by simp)]
    have e2 : (detectScores columns).2
        = ((columns.map lowerStr).map w908).sum + 2 + 2 := by
      rw [detectScores_eq]
      simp [hb1, hb2]
    have hcond1 : ¬ ((detectScores columns).1 > (detectScores columns).2
        ∧ (detectScores columns).1 ≥ 1) := by omega
    have hcond2 : (detectScores columns).2 > (detectScores columns).1
        ∧ (detectScores columns).2 ≥ 1 := by
      constructor <;> omega
    simp only [detect_report_type]
    rw [if_neg hcond1, if_pos hcond2]

/-- Witness for the amended C9 at the two minimal column sets. -/
theorem classify_keyword_soundness_amended_witness :
    detect_report_type ["Payee", "Commission"] = some "RPT600"
    ∧ detect_report_type ["Cancellation_Reason", "Refund_Amount"]
        = some "RPT908" :=
  ⟨classify_keyword_soundness_amended.1 ["Payee", "Commission"]
      (by decide) (by decide) (by decide),
   classify_keyword_soundness_amended.2 ["Cancellation_Reason", "Refund_Amount"]
      (by decide) (by decide) (by decide)⟩

/-- C10 fails as stated: on the single column "contract" the
streamlit_app.py classifier returns "RPT908" (its indicator list holds
"contract") while the src/app/main.py classifier, whose indicator list
does not, returns `none`. -/
theorem classifier_equivalence_counterexample :
    detect_report_type ["contract"] = some "RPT908"
    ∧ detect_report_type_main ["contract"] = none := by
  constructor <;> decide

/-- C10 (amended): the two classifier implementations agree on every
unambiguous column list - when some column contains "payee" and no
column matches any cancellation indicator in either containment
direction both return "RPT600", and when some column contains
"cancellation" and no column matches any payee-family indicator in
either direction both return "RPT908" - as well as on the empty column
list; but they do not agree on every list of column names. -/
theorem classifier_agreement_on_unambiguous :
    (∀ columns : List String,
      (∃ c ∈ columns, substr "payee" (lowerStr c) = true) →
      (∀ c ∈ columns, ∀ ind ∈ rpt908_indicators,
        matchB ind (lowerStr c) = false) →
      detect_report_type columns = some "RPT600"
        ∧ detect_report_type_main columns = some "RPT600")
  ∧ (∀ columns : List String,
      (∃ c ∈ columns, substr "cancellation" (lowerStr c) = true) →
      (∀ c ∈ columns, ∀ ind ∈ rpt600_indicators,
        matchB ind (lowerStr c) = false) →
      detect_report_type columns = some "RPT908"
        ∧ detect_report_type_main columns = some "RPT908")
  ∧ detect_report_type ([] : List String) = detect_report_type_main [] := by
  refine ⟨?_, ?_, by decide⟩
  · intro columns hex hno
    have h908 : ∀ x ∈ columns.map lowerStr, w908 x = 0 := by
      intro x hx
      rcases List.mem_map.1 hx with ⟨c, hc, rfl⟩
      exact List.countP_eq_zero.2 (fun ind hi => by simp [hno c hc ind hi])
    have hnosub : ∀ t ∈ rpt908_indicators,
        (columns.map lowerStr).any (fun col => substr t col) = false := by
      intro t ht
      refine List.any_eq_false.2 ?_
      intro x hx
      have h0 := List.countP_eq_zero.1 (h908 x hx) t ht
      simp [matchB] at h0
      simp [h0.1]
    have hbp : (columns.map lowerStr).any
        (fun col => substr "payee" col) = true := by
      rcases hex with ⟨c, hc, hsub⟩
      exact List.any_eq_true.2 ⟨lowerStr c, List.mem_map_of_mem lowerStr hc, hsub⟩
    have hsum908 : ((columns.map lowerStr).map w908).sum = 0 := by
      refine List.sum_eq_zero ?_
      intro x hx
      rcases List.mem_map.1 hx with ⟨y, hy, rfl⟩
      exact h908 y hy
    have key2 : (detectScores columns).2 = 0 := by
      rw [detectScores_eq]
      simp only [List.map_map] at hsum908
      simp [hsum908, hnosub "cancellation" (by decide),
        hnosub "refund" (by decide)]
    have key1 : 2 ≤ (detectScores columns).1 := by
      rw [detectScores_eq]
      cases hcany : (columns.map lowerStr).any
          (fun col => substr "commission" col) <;>
        simp [hbp, hcany]
    have hm908 : (mainScores columns).2 = 0 := by
      simp only [mainScores]
      refine List.countP_eq_zero.2 (fun ind hi => ?_)
      have hmem : ind ∈ rpt908_indicators :=
        (by decide : ∀ x ∈ rpt908_indicators_main, x ∈ rpt908_indicators) ind hi
      simp [hnosub ind hmem]
    have hm600 : 1 ≤ (mainScores columns).1 := by
      simp only [mainScores]
      exact List.countP_pos_iff.2 ⟨"payee", by decide, hbp⟩
    constructor
    · simp only [detect_report_type]
      rw [if_pos (by constructor <;> omega)]
    · simp only [detect_report_type_main]
      rw [if_pos (by omega)]
  · intro columns hex hno
    have h600 : ∀ x ∈ columns.map lowerStr, w600 x = 0 := by
      intro x hx
      rcases List.mem_map.1 hx with ⟨c, hc, rfl⟩
      exact List.countP_eq_zero.2 (fun ind hi => by simp [hno c hc ind hi])
    have hnosub6 : ∀ t ∈ rpt600_indicators,
        (columns.map lowerStr).any (fun col => substr t col) = false := by
      intro t ht
      refine List.any_eq_false.2 ?_
      intro x hx
      have h0 := List.countP_eq_zero.1 (h600 x hx) t ht
      simp [matchB] at h0
      simp [h0.1]
    have hbc : (columns.map lowerStr).any
        (fun col => substr "cancellation" col) = true := by
      rcases hex with ⟨c, hc, hsub⟩
      exact List.any_eq_true.2 ⟨lowerStr c, List.mem_map_of_mem lowerStr hc, hsub⟩
    have hsum600 : ((columns.map lowerStr).map w600).sum = 0 := by
      refine List.sum_eq_zero ?_
      intro x hx
      rcases List.mem_map.1 hx with ⟨y, hy, rfl⟩
      exact h600 y hy
    have key1 : (detectScores columns).1 = 0 := by
      rw [detectScores_eq]
      simp only [List.map_map] at hsum600
      simp [hsum600, hnosub6 "payee" (by decide),
        hnosub6 "commission" (by decide)]
    have key2 : 2 ≤ (detectScores columns).2 := by
      rw [detectScores_eq]
      cases hrany : (columns.map lowerStr).any
          (fun col => substr "refund" col) <;>
        simp [hbc, hrany]
    have hm600 : (mainScores columns).1 = 0 := by
      simp only [mainScores]
      refine List.countP_eq_zero.2 (fun ind hi => ?_)
      have hmem : ind ∈ rpt600_indicators :=
        (by decide : ∀ x ∈ rpt600_indicators_main, x ∈ rpt600_indicators) ind hi
      simp [hnosub6 ind hmem]
    have hm908 : 1 ≤ (mainScores columns).2 := by
      simp only [mainScores]
      exact List.countP_pos_iff.2 ⟨"cancellation", by decide, hbc⟩
    constructor
    · simp only [detect_report_type]
      rw [if_neg (by omega), if_pos (by constructor <;> omega)]
    · simp only [detect_report_type_main]
      rw [if_neg (by omega), if_pos (by omega)]

/-- Witness for the amended C10: both classifiers agree on a concrete
payee-only header and on a concrete cancellation-only header. -/
theorem classifier_agreement_on_unambiguous_witness :
    (detect_report_type ["Payee"] = some "RPT600"
      ∧ detect_report_type_main ["Payee"] = some "RPT600")
    ∧ (detect_report_type ["Cancellation_Date"] = some "RPT908"
      ∧ detect_report_type_main ["Cancellation_Date"] = some "RPT908") :=
  ⟨classifier_agreement_on_unambiguous.1 ["Payee"] (by decide) (by decide),
   classifier_agreement_on_unambiguous.2.1 ["Cancellation_Date"]
     (by decide) (by decide)⟩
